import Mathlib

/-!
Verification of the CS-330 scene renderer (SceneManager.cpp / ViewManager.cpp).

A shallow embedding of the scene-composition and view-control code of the
repository, together with theorems settling the specification claims.
Floating-point arithmetic of the C++ source is modelled over the real
numbers (exact trigonometry); container state (`m_textureIDs`,
`m_objectMaterials`) is modelled with lists.
-/

open Real

namespace CS330

/-- The `glm::radians`: degrees to radians, `deg * pi / 180`. -/
noncomputable def radians (deg : ℝ) : ℝ := deg * (Real.pi / 180)

/-! ## Articulated-lamp forward kinematics (RenderScene, SceneManager.cpp 535-616)

The source threads a rolling `pos` cursor through the lamp chain; here every
intermediate position is a named definition, each translated from the
corresponding block of `RenderScene`. -/

/-- The `lowerArmLength` local of RenderScene. -/
def lowerArmLength : ℝ := 2.2

/-- The lower-arm base position, `pos = glm::vec3(-8.0f, 2.0f, 0.0f)` (top of post). -/
def lowerArmBase : ℝ × ℝ × ℝ := (-8, 2, 0)

/-- The lower-arm X rotation, `xRot = -50.0f`. -/
def lowerArmXRot : ℝ := -50

/-- The `elbowOffset = -0.9f`. -/
def elbowOffset : ℝ := -0.9

/-- The generic tip formula of the source's elbow computation
(`dx = L*sin(radians(-alpha))*cos(radians(beta))`, `dy = L*cos(radians(-alpha))`,
`dz = L*sin(radians(-alpha))*sin(radians(beta))`, `tip = p + (dx,dy,dz)`),
abstracted over base `p`, length `L` and the two rotation angles. -/
noncomputable def fkTip (p : ℝ × ℝ × ℝ) (L alpha beta : ℝ) : ℝ × ℝ × ℝ :=
  let dx := L * Real.sin (radians (-alpha)) * Real.cos (radians beta)
  let dy := L * Real.cos (radians (-alpha))
  let dz := L * Real.sin (radians (-alpha)) * Real.sin (radians beta)
  (p.1 + dx, p.2.1 + dy, p.2.2 + dz)

/-- Elbow-joint position (SceneManager.cpp 544-560): the lower-arm tip by the
forward-kinematics formula with `yRotElbow = 0`, plus the constant `-0.9`
X offset. -/
noncomputable def elbowPos : ℝ × ℝ × ℝ :=
  let lowerArmAngleRad := radians (-lowerArmXRot)
  let lowerArmYRotRad := radians 0
  let dx := lowerArmLength * Real.sin lowerArmAngleRad * Real.cos lowerArmYRotRad
  let dy := lowerArmLength * Real.cos lowerArmAngleRad
  let dz := lowerArmLength * Real.sin lowerArmAngleRad * Real.sin lowerArmYRotRad
  (lowerArmBase.1 + dx + elbowOffset, lowerArmBase.2.1 + dy, lowerArmBase.2.2 + dz)

/-- The `upperArmLength = 2.0f`. -/
def upperArmLength : ℝ := 2

/-- The upper-arm X rotation, `xRot = -25.0f`. -/
def upperArmXRot : ℝ := -25

/-- The upper-arm Y rotation, `yRot = 90.0f` (used only in the draw transform,
not in the head-joint placement). -/
def upperArmYRot : ℝ := 90

/-- Head-joint position (SceneManager.cpp 578-583):
`upperX = pos.x + upperArmLength * sin(glm::radians(-xRot))`,
`upperY = pos.y + upperArmLength * cos(glm::radians(-xRot))`, Z kept at `pos.z`.
Note the source omits any dependence on the upper arm's Y rotation. -/
noncomputable def headJointPos : ℝ × ℝ × ℝ :=
  let upperX := elbowPos.1 + upperArmLength * Real.sin (radians (-upperArmXRot))
  let upperY := elbowPos.2.1 + upperArmLength * Real.cos (radians (-upperArmXRot))
  (upperX, upperY, elbowPos.2.2)

/-- The `neckLength = 0.7f`. -/
def neckLength : ℝ := 0.7

/-- The neck X rotation, `xRot = -50.0f` (second assignment). -/
def neckXRot : ℝ := -50

/-- Shade position (SceneManager.cpp 598-603): neck tip by the 2D formula. -/
noncomputable def shadePos : ℝ × ℝ × ℝ :=
  let shadeX := headJointPos.1 + neckLength * Real.sin (radians (-neckXRot))
  let shadeY := headJointPos.2.1 + neckLength * Real.cos (radians (-neckXRot))
  (shadeX, shadeY, headJointPos.2.2)

/-- Bulb position (SceneManager.cpp 610-611): `(shadeX, shadeY + 0.2, neckStart.z)`. -/
noncomputable def bulbPos : ℝ × ℝ × ℝ :=
  (shadePos.1, shadePos.2.1 + 0.2, shadePos.2.2)

/-! ### Small facts about `radians` at the concrete angles used -/

theorem radians_zero : radians 0 = 0 := by
  simp [radians]

theorem radians_ninety : radians 90 = Real.pi / 2 := by
  unfold radians; ring

theorem sin_radians_ninety : Real.sin (radians 90) = 1 := by
  rw [radians_ninety, Real.sin_pi_div_two]

theorem cos_radians_ninety : Real.cos (radians 90) = 0 := by
  rw [radians_ninety, Real.cos_pi_div_two]

theorem sin_radians_twentyfive_pos : 0 < Real.sin (radians 25) := by
  have hpi := Real.pi_pos
  apply Real.sin_pos_of_pos_of_lt_pi
  · unfold radians; nlinarith
  · unfold radians; nlinarith

/-- C1 counterexample: the head-joint sphere is NOT at the position given by the
section 4.2.4 three-dimensional forward-kinematics formula for the upper arm
(L = 2, alpha = -25, beta = 90): the formula's displacement from the elbow would be
`(L·sin(radians 25)·cos(radians 90), L·cos(radians 25), L·sin(radians 25)·sin(radians 90))`,
but the code places the head joint elsewhere (its X displacement is
`L·sin(radians 25) ≠ 0`, and its Z displacement is `0`). -/
theorem head_joint_not_3d_fk :
    headJointPos ≠
      (elbowPos.1 + upperArmLength * Real.sin (radians 25) * Real.cos (radians 90),
       elbowPos.2.1 + upperArmLength * Real.cos (radians 25),
       elbowPos.2.2 + upperArmLength * Real.sin (radians 25) * Real.sin (radians 90)) := by
  intro h
  have hx := congrArg Prod.fst h
  simp only [headJointPos, upperArmXRot, upperArmLength, cos_radians_ninety] at hx
  have h25 : (-(-25) : ℝ) = 25 := by norm_num
  rw [h25] at hx
  have := sin_radians_twentyfive_pos
  nlinarith [this]

/-- C1 amended: in RenderScene the head-joint sphere's displacement from the elbow
is the two-dimensional placement `(L·sin(radians 25), L·cos(radians 25), 0)` with
L = 2 — the source omits the Y-rotation (beta = 90) factors of the section 4.2.4
formula, keeping the Z coordinate of the elbow unchanged. -/
theorem head_joint_2d_placement :
    headJointPos =
      (elbowPos.1 + upperArmLength * Real.sin (radians 25),
       elbowPos.2.1 + upperArmLength * Real.cos (radians 25),
       elbowPos.2.2) := by
  simp only [headJointPos, upperArmXRot]
  norm_num

/-- C2: the elbow-joint sphere's position equals the lower-arm base `(-8,2,0)` plus
the forward-kinematics displacement for L = 2.2, alpha = -50, beta = 0, plus the
constant lateral offset `-0.9` in X; and the formula itself gives tip `(1,0,0)`
for base `(0,0,0)`, L = 1, alpha = -90, beta = 0, and tip `(0,1,0)` for alpha = 0
(exactly, hence within 1e-6). -/
theorem elbow_position_fk :
    (elbowPos.1 = (fkTip lowerArmBase lowerArmLength lowerArmXRot 0).1 + elbowOffset
      ∧ elbowPos.2.1 = (fkTip lowerArmBase lowerArmLength lowerArmXRot 0).2.1
      ∧ elbowPos.2.2 = (fkTip lowerArmBase lowerArmLength lowerArmXRot 0).2.2)
    ∧ fkTip (0, 0, 0) 1 (-90) 0 = (1, 0, 0)
    ∧ fkTip (0, 0, 0) 1 0 0 = (0, 1, 0) := by
  refine ⟨⟨?_, ?_, ?_⟩, ?_, ?_⟩
  · simp [elbowPos, fkTip]
  · simp [elbowPos, fkTip]
  · simp [elbowPos, fkTip]
  · simp only [fkTip]
    norm_num [sin_radians_ninety, cos_radians_ninety, radians_zero]
  · simp only [fkTip]
    norm_num [radians_zero]

/-! ## Texture registry (SceneManager.cpp 60-205)

`m_textureIDs` / `m_loadedTextures` are modelled as the list of registered tags in
insertion order (the GPU handle plays no role in the slot claims). -/

/-- The registration step of a successful `CreateGLTexture` call
(SceneManager.cpp 112-115): the tag is appended at index `m_loadedTextures`,
which is then incremented. -/
def createGLTextureRegister (registry : List String) (tag : String) : List String :=
  registry ++ [tag]

/-- The scan loop of `FindTextureSlot` (SceneManager.cpp 193-202), carrying the
current index: returns the first index whose tag matches, else leaves the
initial `-1`. -/
def findTextureSlotLoop : List String → String → Nat → Int
  | [], _, _ => -1
  | t :: rest, tag, index =>
    if t = tag then (index : Int) else findTextureSlotLoop rest tag (index + 1)

/-- The `FindTextureSlot` (SceneManager.cpp 187-205): linear scan from index 0. -/
def FindTextureSlot (registry : List String) (tag : String) : Int :=
  findTextureSlotLoop registry tag 0

/-- The registry after a sequence of successful `CreateGLTexture` calls with the
given tags, in call order, starting from the empty registry. -/
def buildRegistry (tags : List String) : List String :=
  tags.foldl createGLTextureRegister []

theorem buildRegistry_eq (tags : List String) : buildRegistry tags = tags := by
  suffices h : ∀ acc : List String, tags.foldl createGLTextureRegister acc = acc ++ tags by
    simpa using h []
  induction tags with
  | nil => intro acc; simp
  | cons t rest ih =>
      intro acc
      simp [createGLTextureRegister, ih]

theorem findTextureSlotLoop_not_mem (tag : String) :
    ∀ (l : List String) (i : Nat), tag ∉ l → findTextureSlotLoop l tag i = -1 := by
  intro l
  induction l with
  | nil => intro i _; rfl
  | cons t rest ih =>
      intro i hmem
      have ht : t ≠ tag := fun h => hmem (by simp [h])
      have hrest : tag ∉ rest := fun h => hmem (List.mem_cons_of_mem _ h)
      simp [findTextureSlotLoop, ht, ih _ hrest]

theorem findTextureSlotLoop_get (tag : String) :
    ∀ (l : List String) (i : Nat) (k : Nat) (hk : k < l.length),
      l.get ⟨k, hk⟩ = tag → (∀ j, ∀ hj : j < l.length, j ≠ k → l.get ⟨j, hj⟩ ≠ tag) →
      findTextureSlotLoop l tag i = (i : Int) + (k : Int) := by
  intro l
  induction l with
  | nil => intro i k hk; exact absurd hk (Nat.not_lt_zero k)
  | cons t rest ih =>
      intro i k hk hget huniq
      cases k with
      | zero =>
          simp only [List.get] at hget
          simp [findTextureSlotLoop, hget]
      | succ k =>
          have ht : t ≠ tag := by
            have := huniq 0 (Nat.succ_pos _) (Nat.succ_ne_zero k).symm
            simpa using this
          have hk' : k < rest.length := Nat.lt_of_succ_lt_succ hk
          have hget' : rest.get ⟨k, hk'⟩ = tag := hget
          have huniq' : ∀ j, ∀ hj : j < rest.length, j ≠ k → rest.get ⟨j, hj⟩ ≠ tag := by
            intro j hj hne
            have := huniq (j + 1) (Nat.succ_lt_succ hj) (fun h => hne (Nat.succ_injective h))
            simpa using this
          have := ih (i + 1) k hk' hget' huniq'
          simp only [findTextureSlotLoop, ht, if_neg ht]
          rw [this]
          push_cast
          ring

/-- C6: after any sequence of successful `CreateTexture` calls with pairwise-distinct
tags `tags`, followed by any later successful calls with fresh distinct tags `more`,
`FindTextureSlot` returns the insertion index `k` for each `tags[k]` (insertion order,
stable under the later calls), and returns `-1` for any unregistered tag. -/
theorem texture_slot_stability (tags more : List String)
    (hnodup : (tags ++ more).Nodup) :
    (∀ k, ∀ hk : k < tags.length,
        FindTextureSlot (buildRegistry (tags ++ more)) (tags.get ⟨k, hk⟩) = (k : Int))
    ∧ (∀ tag, tag ∉ tags ++ more →
        FindTextureSlot (buildRegistry (tags ++ more)) tag = -1) := by
  constructor
  · intro k hk
    have hkl : k < (tags ++ more).length := by
      rw [List.length_append]
      exact Nat.lt_of_lt_of_le hk (Nat.le_add_right _ _)
    have hget : (tags ++ more).get ⟨k, hkl⟩ = tags.get ⟨k, hk⟩ := by
      simp only [List.get_eq_getElem]
      exact List.getElem_append_left hk
    have huniq : ∀ j, ∀ hj : j < (tags ++ more).length, j ≠ k →
        (tags ++ more).get ⟨j, hj⟩ ≠ tags.get ⟨k, hk⟩ := by
      intro j hj hjk heq
      have hgg : (tags ++ more).get ⟨j, hj⟩ = (tags ++ more).get ⟨k, hkl⟩ := by
        rw [heq, hget]
      exact hjk (congrArg Fin.val ((List.Nodup.get_inj_iff hnodup).mp hgg))
    rw [buildRegistry_eq]
    have := findTextureSlotLoop_get (tags.get ⟨k, hk⟩) (tags ++ more) 0 k hkl hget huniq
    simpa [FindTextureSlot] using this
  · intro tag hmem
    rw [buildRegistry_eq]
    exact findTextureSlotLoop_not_mem tag _ 0 hmem

/-- C6 witness: three successful creates `["stainless", "gold", "wood"]` then one
later create `["plastic"]`: slots are 0, 1, 2 and an unknown tag gives -1. -/
theorem texture_slot_stability_witness :
    FindTextureSlot (buildRegistry (["stainless", "gold", "wood"] ++ ["plastic"])) "wood" = 2
    ∧ FindTextureSlot (buildRegistry (["stainless", "gold", "wood"] ++ ["plastic"]))
        "nonexistent" = -1 := by
  have h := texture_slot_stability ["stainless", "gold", "wood"] ["plastic"] (by decide)
  exact ⟨h.1 2 (by decide), h.2 "nonexistent" (by decide)⟩

/-! ## Material library (SceneManager.cpp 213-240, 398-451)

`OBJECT_MATERIAL` fields use exact rationals for the float constants; only tag
comparison and field copying matter here. -/

/-- The `OBJECT_MATERIAL` struct, field order as in the brace initializers of
`SetupMaterials`. -/
structure OBJECT_MATERIAL where
  ambientStrength : ℚ
  ambientColor : ℚ × ℚ × ℚ
  diffuseColor : ℚ × ℚ × ℚ
  specularColor : ℚ × ℚ × ℚ
  shininess : ℚ
  tag : String
deriving DecidableEq, Repr

/-- The scan loop of `FindMaterial` (SceneManager.cpp 220-237): walks the library
until the first tag match, copying the five shading fields (not the tag) of the
matching preset into the out-parameter; if no entry matches, the out-parameter is
returned unchanged. -/
def findMaterialLoop : List OBJECT_MATERIAL → String → OBJECT_MATERIAL → OBJECT_MATERIAL
  | [], _, material => material
  | m :: rest, tag, material =>
    if m.tag = tag then
      { material with
        ambientColor := m.ambientColor
        ambientStrength := m.ambientStrength
        diffuseColor := m.diffuseColor
        specularColor := m.specularColor
        shininess := m.shininess }
    else findMaterialLoop rest tag material

/-- The `FindMaterial` (SceneManager.cpp 213-240): returns `false` with the
out-parameter untouched when the library is empty; otherwise runs the scan loop
and returns `true` regardless of whether the tag was found. The returned pair is
(boolean result, out-parameter after the call). -/
def FindMaterial (materials : List OBJECT_MATERIAL) (tag : String)
    (material : OBJECT_MATERIAL) : Bool × OBJECT_MATERIAL :=
  if materials = [] then (false, material)
  else (true, findMaterialLoop materials tag material)

theorem findMaterialLoop_not_found (tag : String) :
    ∀ (materials : List OBJECT_MATERIAL) (out : OBJECT_MATERIAL),
      (∀ m ∈ materials, m.tag ≠ tag) → findMaterialLoop materials tag out = out := by
  intro materials
  induction materials with
  | nil => intro out _; rfl
  | cons m rest ih =>
      intro out hmiss
      have hm : m.tag ≠ tag := hmiss m (List.mem_cons_self m rest)
      simp only [findMaterialLoop, if_neg hm]
      exact ih out fun x hx => hmiss x (List.mem_cons_of_mem _ hx)

theorem findMaterialLoop_found (tag : String) :
    ∀ (materials : List OBJECT_MATERIAL) (out first : OBJECT_MATERIAL),
      materials.find? (fun m => m.tag = tag) = some first →
      findMaterialLoop materials tag out =
        { out with
          ambientColor := first.ambientColor
          ambientStrength := first.ambientStrength
          diffuseColor := first.diffuseColor
          specularColor := first.specularColor
          shininess := first.shininess } := by
  intro materials
  induction materials with
  | nil => intro out first h; simp at h
  | cons m rest ih =>
      intro out first h
      by_cases hm : m.tag = tag
      · rw [List.find?_cons_of_pos _ (by simpa using hm)] at h
        cases h
        simp [findMaterialLoop, hm]
      · rw [List.find?_cons_of_neg _ (by simpa using hm)] at h
        simp only [findMaterialLoop, if_neg hm]
        exact ih out first h

/-- C5: `FindMaterial(tag, out)` returns `false` iff the material library is empty;
when non-empty it returns `true` whether or not the tag is present; when the tag is
present it copies the five shading fields of the first matching preset into the
out-parameter, and when absent it leaves the out-parameter unchanged. -/
theorem find_material_contract (materials : List OBJECT_MATERIAL) (tag : String)
    (out : OBJECT_MATERIAL) :
    ((FindMaterial materials tag out).1 = false ↔ materials = [])
    ∧ (materials ≠ [] → (FindMaterial materials tag out).1 = true)
    ∧ (∀ first, materials.find? (fun m => m.tag = tag) = some first →
        (FindMaterial materials tag out).2 =
          { out with
            ambientColor := first.ambientColor
            ambientStrength := first.ambientStrength
            diffuseColor := first.diffuseColor
            specularColor := first.specularColor
            shininess := first.shininess })
    ∧ (materials.find? (fun m => m.tag = tag) = none →
        (FindMaterial materials tag out).2 = out) := by
  refine ⟨?_, ?_, ?_, ?_⟩
  · unfold FindMaterial
    by_cases h : materials = [] <;> simp [h]
  · intro h
    unfold FindMaterial
    simp [h]
  · intro first hfind
    have hne : materials ≠ [] := by
      intro h; rw [h] at hfind; simp at hfind
    unfold FindMaterial
    rw [if_neg hne]
    exact findMaterialLoop_found tag materials out first hfind
  · intro hfind
    by_cases h : materials = []
    · unfold FindMaterial; simp [h]
    · unfold FindMaterial
      rw [if_neg h]
      refine findMaterialLoop_not_found tag materials out ?_
      intro m hm heq
      have := List.find?_eq_none.mp hfind m hm
      simp [heq] at this

/-- The `gold` preset of `SetupMaterials` (SceneManager.cpp 428-435). -/
def goldMaterial : OBJECT_MATERIAL :=
  { ambientStrength := 0.25
    ambientColor := (0.3, 0.3, 0.3)
    diffuseColor := (0.6, 0.6, 0.6)
    specularColor := (1, 1, 1)
    shininess := 64
    tag := "gold" }

/-- The `burntsand` preset of `SetupMaterials` (SceneManager.cpp 437-444). -/
def burntsandMaterial : OBJECT_MATERIAL :=
  { ambientStrength := 0.1
    ambientColor := (0.2, 0.2, 0.2)
    diffuseColor := (0.45, 0.45, 0.45)
    specularColor := (0.2, 0.2, 0.2)
    shininess := 8
    tag := "burntsand" }

/-- C5 witness: on the concrete two-entry library `[gold, burntsand]`, looking up
`"burntsand"` returns `true` and copies its five fields into a default
out-parameter while keeping the out-parameter's tag; looking up `"missing"` still
returns `true` and leaves the out-parameter unchanged; and on the empty library the
call returns `false`. -/
theorem find_material_contract_witness :
    (FindMaterial [goldMaterial, burntsandMaterial] "burntsand"
        { ambientStrength := 0, ambientColor := (0, 0, 0), diffuseColor := (0, 0, 0),
          specularColor := (0, 0, 0), shininess := 0, tag := "out" }).2 =
      { ambientStrength := 0.1, ambientColor := (0.2, 0.2, 0.2),
        diffuseColor := (0.45, 0.45, 0.45), specularColor := (0.2, 0.2, 0.2),
        shininess := 8, tag := "out" }
    ∧ (FindMaterial [goldMaterial, burntsandMaterial] "missing"
        { ambientStrength := 0, ambientColor := (0, 0, 0), diffuseColor := (0, 0, 0),
          specularColor := (0, 0, 0), shininess := 0, tag := "out" }).1 = true
    ∧ (FindMaterial [] "gold"
        { ambientStrength := 0, ambientColor := (0, 0, 0), diffuseColor := (0, 0, 0),
          specularColor := (0, 0, 0), shininess := 0, tag := "out" }).1 = false := by
  refine ⟨?_, ?_, ?_⟩
  · exact (find_material_contract [goldMaterial, burntsandMaterial] "burntsand" _).2.2.1
      burntsandMaterial rfl
  · exact (find_material_contract [goldMaterial, burntsandMaterial] "missing" _).2.1
      (by decide)
  · exact (find_material_contract [] "gold" _).1.mpr rfl

/-! ## SetTransformations (SceneManager.cpp 248-278)

The 4x4 matrices produced by `glm::scale`, `glm::rotate` (about the three unit
axes) and `glm::translate`, and the `model` matrix pushed by
`SetTransformations`. -/

/-- The `glm::scale(scaleXYZ)`. -/
def scaleMat (s : ℝ × ℝ × ℝ) : Matrix (Fin 4) (Fin 4) ℝ :=
  !![s.1, 0, 0, 0; 0, s.2.1, 0, 0; 0, 0, s.2.2, 0; 0, 0, 0, 1]

/-- The `glm::rotate(theta, vec3(1,0,0))`: rotation about the world X axis. -/
noncomputable def rotateXMat (theta : ℝ) : Matrix (Fin 4) (Fin 4) ℝ :=
  !![1, 0, 0, 0;
     0, Real.cos theta, -Real.sin theta, 0;
     0, Real.sin theta, Real.cos theta, 0;
     0, 0, 0, 1]

/-- The `glm::rotate(theta, vec3(0,1,0))`: rotation about the world Y axis. -/
noncomputable def rotateYMat (theta : ℝ) : Matrix (Fin 4) (Fin 4) ℝ :=
  !![Real.cos theta, 0, Real.sin theta, 0;
     0, 1, 0, 0;
     -Real.sin theta, 0, Real.cos theta, 0;
     0, 0, 0, 1]

/-- The `glm::rotate(theta, vec3(0,0,1))`: rotation about the world Z axis. -/
noncomputable def rotateZMat (theta : ℝ) : Matrix (Fin 4) (Fin 4) ℝ :=
  !![Real.cos theta, -Real.sin theta, 0, 0;
     Real.sin theta, Real.cos theta, 0, 0;
     0, 0, 1, 0;
     0, 0, 0, 1]

/-- The `glm::translate(positionXYZ)`. -/
def translateMat (t : ℝ × ℝ × ℝ) : Matrix (Fin 4) (Fin 4) ℝ :=
  !![1, 0, 0, t.1; 0, 1, 0, t.2.1; 0, 0, 1, t.2.2; 0, 0, 0, 1]

/-- The `SetTransformations` (SceneManager.cpp 248-278): the `model` matrix pushed to
the shader, `modelView = translation * rotationX * rotationY * rotationZ * scale`
with each rotation angle converted by `glm::radians`. -/
noncomputable def setTransformationsModel (scaleXYZ : ℝ × ℝ × ℝ)
    (xRotDegrees yRotDegrees zRotDegrees : ℝ)
    (positionXYZ : ℝ × ℝ × ℝ) : Matrix (Fin 4) (Fin 4) ℝ :=
  translateMat positionXYZ
    * rotateXMat (radians xRotDegrees)
    * rotateYMat (radians yRotDegrees)
    * rotateZMat (radians zRotDegrees)
    * scaleMat scaleXYZ

theorem rotateXMat_zero : rotateXMat 0 = 1 := by
  unfold rotateXMat
  ext i j
  fin_cases i <;> fin_cases j <;>
    simp [Matrix.one_apply, Matrix.vecHead, Matrix.vecTail]

theorem rotateYMat_zero : rotateYMat 0 = 1 := by
  unfold rotateYMat
  ext i j
  fin_cases i <;> fin_cases j <;>
    simp [Matrix.one_apply, Matrix.vecHead, Matrix.vecTail]

theorem rotateZMat_zero : rotateZMat 0 = 1 := by
  unfold rotateZMat
  ext i j
  fin_cases i <;> fin_cases j <;>
    simp [Matrix.one_apply, Matrix.vecHead, Matrix.vecTail]

theorem scaleMat_mulVec_origin (s : ℝ × ℝ × ℝ) :
    (scaleMat s).mulVec ![0, 0, 0, 1] = ![0, 0, 0, 1] := by
  funext i
  fin_cases i <;>
    simp [scaleMat, Matrix.mulVec, Matrix.dotProduct, Fin.sum_univ_four]

theorem rotateXMat_mulVec_origin (theta : ℝ) :
    (rotateXMat theta).mulVec ![0, 0, 0, 1] = ![0, 0, 0, 1] := by
  funext i
  fin_cases i <;>
    simp [rotateXMat, Matrix.mulVec, Matrix.dotProduct, Fin.sum_univ_four]

theorem rotateYMat_mulVec_origin (theta : ℝ) :
    (rotateYMat theta).mulVec ![0, 0, 0, 1] = ![0, 0, 0, 1] := by
  funext i
  fin_cases i <;>
    simp [rotateYMat, Matrix.mulVec, Matrix.dotProduct, Fin.sum_univ_four]

theorem rotateZMat_mulVec_origin (theta : ℝ) :
    (rotateZMat theta).mulVec ![0, 0, 0, 1] = ![0, 0, 0, 1] := by
  funext i
  fin_cases i <;>
    simp [rotateZMat, Matrix.mulVec, Matrix.dotProduct, Fin.sum_univ_four]

theorem translateMat_mulVec_origin (t : ℝ × ℝ × ℝ) :
    (translateMat t).mulVec ![0, 0, 0, 1] = ![t.1, t.2.1, t.2.2, 1] := by
  funext i
  fin_cases i <;>
    simp [translateMat, Matrix.mulVec, Matrix.dotProduct, Fin.sum_univ_four]

/-- C4: `SetTransformations` pushes as uniform `model` the matrix
`M = T * Rx * Ry * Rz * S` with the rotation angles converted to radians;
consequently `M` applied to `(0,0,0,1)` equals `(translation, 1)` for all inputs,
and `M = T * S` whenever all three rotation angles are zero. -/
theorem set_transformations_trs (s : ℝ × ℝ × ℝ) (rx ry rz : ℝ) (t : ℝ × ℝ × ℝ) :
    setTransformationsModel s rx ry rz t =
      translateMat t * rotateXMat (radians rx) * rotateYMat (radians ry)
        * rotateZMat (radians rz) * scaleMat s
    ∧ (setTransformationsModel s rx ry rz t).mulVec ![0, 0, 0, 1]
        = ![t.1, t.2.1, t.2.2, 1]
    ∧ (rx = 0 → ry = 0 → rz = 0 →
        setTransformationsModel s rx ry rz t = translateMat t * scaleMat s) := by
  refine ⟨rfl, ?_, ?_⟩
  · unfold setTransformationsModel
    rw [← Matrix.mulVec_mulVec, scaleMat_mulVec_origin,
      ← Matrix.mulVec_mulVec, rotateZMat_mulVec_origin,
      ← Matrix.mulVec_mulVec, rotateYMat_mulVec_origin,
      ← Matrix.mulVec_mulVec, rotateXMat_mulVec_origin,
      translateMat_mulVec_origin]
  · intro hx hy hz
    unfold setTransformationsModel
    rw [hx, hy, hz, radians_zero, rotateXMat_zero, rotateYMat_zero, rotateZMat_zero]
    simp

/-- C4 witness: at scale `(2,3,4)`, zero rotations, translation `(5,6,7)`, the model
matrix equals `T * S` and maps the origin to the translation. -/
theorem set_transformations_trs_witness :
    setTransformationsModel (2, 3, 4) 0 0 0 (5, 6, 7) =
      translateMat (5, 6, 7) * scaleMat (2, 3, 4)
    ∧ (setTransformationsModel (2, 3, 4) 0 0 0 (5, 6, 7)).mulVec ![0, 0, 0, 1]
        = ![5, 6, 7, 1] :=
  ⟨(set_transformations_trs (2, 3, 4) 0 0 0 (5, 6, 7)).2.2 rfl rfl rfl,
   (set_transformations_trs (2, 3, 4) 0 0 0 (5, 6, 7)).2.1⟩

/-! ## RenderScene as a command trace (SceneManager.cpp 499-720)

Each shader-state mutation and mesh draw of `RenderScene` is one command, in
program order. `SetShaderTexture` and `SetShaderColor` are kept as commands and
given uniform-level semantics below (SceneManager.cpp 286-324). -/

/-- The `glm::degrees`: radians to degrees. -/
noncomputable def degrees (rad : ℝ) : ℝ := rad * (180 / Real.pi)

/-- The six primitive meshes of the mesh library. -/
inductive ShapeKind
  | plane
  | box
  | cylinder
  | taperedCylinder
  | cone
  | sphere
deriving DecidableEq, Repr

/-- One call made by `RenderScene`: a transform push, a shading-uniform push, or a
mesh draw. Rotation angles are in degrees, as passed to `SetTransformations`. -/
inductive RenderCmd
  | setTransform (scale : ℝ × ℝ × ℝ) (xRotDeg yRotDeg zRotDeg : ℝ) (pos : ℝ × ℝ × ℝ)
  | setMaterial (tag : String)
  | setTexture (tag : String)
  | setUV (u v : ℝ)
  | setColor (r g b a : ℝ)
  | draw (shape : ShapeKind)

/-- The `laptopPos = glm::vec3(0.0f, -0.1f + 0.13f / 2, 0.0f)`. -/
noncomputable def laptopPos : ℝ × ℝ × ℝ := (0, -0.1 + 0.13 / 2, 0)

/-- The `laptopScale = glm::vec3(7.0f, 0.13f, 4.5f)`. -/
def laptopScale : ℝ × ℝ × ℝ := (7, 0.13, 4.5)

/-- The `lidScale = glm::vec3(6.9f, 0.10f, 4.4f)`. -/
def lidScale : ℝ × ℝ × ℝ := (6.9, 0.10, 4.4)

/-- The `lidPos = laptopPos + glm::vec3(0.0f, (laptopScale.y + lidScale.y) / 2, 0.0f)`. -/
noncomputable def lidPos : ℝ × ℝ × ℝ :=
  (laptopPos.1, laptopPos.2.1 + (laptopScale.2.1 + lidScale.2.1) / 2, laptopPos.2.2)

/-- The `cupPos = glm::vec3(4.5f, -0.1f + 0.0f / 2, 0.3f)`. -/
noncomputable def cupPos : ℝ × ℝ × ℝ := (4.5, -0.1 + 0 / 2, 0.3)

/-- The `cupScale = glm::vec3(0.42f, 0.95f, 0.42f)`. -/
def cupScale : ℝ × ℝ × ℝ := (0.42, 0.95, 0.42)

/-- The `rimScale = glm::vec3(0.48f, 0.09f, 0.48f)`. -/
def rimScale : ℝ × ℝ × ℝ := (0.48, 0.09, 0.48)

/-- The `rimPos = cupPos + glm::vec3(0.0f, 0.94f, 0.0f)`. -/
noncomputable def rimPos : ℝ × ℝ × ℝ := (cupPos.1, cupPos.2.1 + 0.94, cupPos.2.2)

/-- The `mugRadius = cupScale.x / 2.0f`. -/
noncomputable def mugRadius : ℝ := cupScale.1 / 2

/-- The `handleRadius = mugRadius * 0.8f`. -/
noncomputable def handleRadius : ℝ := mugRadius * 0.8

/-- The `mugCenterY = cupPos.y + (cupScale.y / 2.0f)`. -/
noncomputable def mugCenterY : ℝ := cupPos.2.1 + cupScale.2.1 / 2

/-- The `segmentLength = 0.13f`. -/
def segmentLength : ℝ := 0.13

/-- The `segmentRadius = 0.07f`. -/
def segmentRadius : ℝ := 0.07

/-- The `handleSegments = 7`. -/
def handleSegments : Nat := 7

/-- The `handleCenterX = cupPos.x + mugRadius + handleRadius + segmentRadius * 0.72f`. -/
noncomputable def handleCenterX : ℝ :=
  cupPos.1 + mugRadius + handleRadius + segmentRadius * 0.72

/-- One iteration of the cup-handle loop (SceneManager.cpp 669-691). -/
noncomputable def handleSegmentCmds (i : Nat) : List RenderCmd :=
  let t : ℝ := (i : ℝ) / ((handleSegments : ℝ) - 1)
  let angle := radians (-90 + t * 180)
  let x := handleCenterX + handleRadius * Real.cos angle
  let y := mugCenterY + handleRadius * Real.sin angle
  let z := cupPos.2.2
  let zRot := degrees angle
  [RenderCmd.setTransform (segmentRadius, segmentLength, segmentRadius) 0 0 zRot (x, y, z),
   RenderCmd.setTexture "plastic",
   RenderCmd.setUV 1 1,
   RenderCmd.setMaterial "plastic",
   RenderCmd.draw ShapeKind.cylinder]

/-- The `book1Pos`, `book1Scale` (SceneManager.cpp 694-695). -/
noncomputable def book1Pos : ℝ × ℝ × ℝ := (5.90, -0.1 + 0.95 / 2, 1.0)

def book1Scale : ℝ × ℝ × ℝ := (0.50, 2.17, 1.62)

/-- The `book2Pos`, `book2Scale` (SceneManager.cpp 703-704). -/
noncomputable def book2Pos : ℝ × ℝ × ℝ := (6.5, -0.1 + 0.95 / 2, 1.0)

def book2Scale : ℝ × ℝ × ℝ := (0.47, 1.67, 1.37)

/-- The `book3Pos`, `book3Scale` (SceneManager.cpp 712-713). -/
noncomputable def book3Pos : ℝ × ℝ × ℝ := (7.89, -0.1 + 0.18 / 2, 0.98)

def book3Scale : ℝ × ℝ × ℝ := (1.37, 0.45, 2.27)

/-- The full per-frame command trace of `RenderScene` (SceneManager.cpp 499-720),
in strict program order. -/
noncomputable def renderSceneCmds : List RenderCmd :=
  [ -- === World Plane ===
   RenderCmd.setTransform (100, 1, 100) 0 0 0 (0, -0.3, 0),
   RenderCmd.setMaterial "burntsand",
   RenderCmd.draw ShapeKind.plane,
   -- === Desk ===
   RenderCmd.setTransform (25, 0.4, 8) 0 0 0 (0, -0.3, 0),
   RenderCmd.setTexture "wood",
   RenderCmd.setUV 2.5 1.5,
   RenderCmd.draw ShapeKind.box,
   -- === Lamp Base ===
   RenderCmd.setTransform (1.5, 0.3, 1.5) 0 0 0 (-8, 0.6, 0),
   RenderCmd.setTexture "stainless",
   RenderCmd.setUV 3 3,
   RenderCmd.draw ShapeKind.cylinder,
   -- === Lamp Base Post ===
   RenderCmd.setTransform (0.3, 1.0, 0.3) 0 0 0 (-8, 1.0, 0),
   RenderCmd.setTexture "darkplastic",
   RenderCmd.setUV 1 1,
   RenderCmd.draw ShapeKind.cylinder,
   -- === Lamp Lower Arm ===
   RenderCmd.setTransform (0.15, lowerArmLength, 0.15) lowerArmXRot 0 0 lowerArmBase,
   RenderCmd.setMaterial "darkplastic",
   RenderCmd.draw ShapeKind.taperedCylinder,
   -- === Lamp Elbow Joint ===
   RenderCmd.setTransform (0.25, 0.25, 0.25) 0 0 0 elbowPos,
   RenderCmd.setTexture "plastic",
   RenderCmd.setUV 1 1,
   RenderCmd.draw ShapeKind.sphere,
   -- === Lamp Upper Arm ===
   RenderCmd.setTransform (0.15, upperArmLength, 0.15) upperArmXRot upperArmYRot 0 elbowPos,
   RenderCmd.setTexture "darkplastic",
   RenderCmd.setUV 1 1,
   RenderCmd.setMaterial "darkplastic",
   RenderCmd.draw ShapeKind.taperedCylinder,
   -- === Lamp Head Joint ===
   RenderCmd.setTransform (0.25, 0.25, 0.25) 0 0 0 headJointPos,
   RenderCmd.setTexture "plastic",
   RenderCmd.setUV 1 1,
   RenderCmd.draw ShapeKind.sphere,
   -- === Lamp Neck ===
   RenderCmd.setTransform (0.12, neckLength, 0.12) neckXRot 0 0 headJointPos,
   RenderCmd.setMaterial "darkplastic",
   RenderCmd.draw ShapeKind.cylinder,
   -- === Lamp Shade ===
   RenderCmd.setTransform (1.2, 0.8, 1.2) 220 0 0 shadePos,
   RenderCmd.setTexture "stainless",
   RenderCmd.setUV 1 1,
   RenderCmd.draw ShapeKind.cone,
   -- === Lamp Bulb ===
   RenderCmd.setTransform (0.2, 0.2, 0.2) 0 0 0 bulbPos,
   RenderCmd.setTexture "gold",
   RenderCmd.setUV 1 1,
   RenderCmd.setMaterial "gold",
   RenderCmd.draw ShapeKind.sphere,
   -- ==== CLOSED LAPTOP: base ====
   RenderCmd.setTransform laptopScale 0 0 0 laptopPos,
   RenderCmd.setTexture "darkplastic",
   RenderCmd.setUV 2.0 1.5,
   RenderCmd.setMaterial "darkplastic",
   RenderCmd.draw ShapeKind.box,
   -- Laptop lid
   RenderCmd.setTransform lidScale 0 0 0 lidPos,
   RenderCmd.setTexture "stainless",
   RenderCmd.setUV 2.0 1.5,
   RenderCmd.setMaterial "steel",
   RenderCmd.draw ShapeKind.box,
   -- ==== COFFEE CUP: body ====
   RenderCmd.setTransform cupScale 0 0 0 cupPos,
   RenderCmd.setTexture "plastic",
   RenderCmd.setUV 1 1,
   RenderCmd.setMaterial "plastic",
   RenderCmd.draw ShapeKind.cylinder,
   -- Cup rim
   RenderCmd.setTransform rimScale 180 0 0 rimPos,
   RenderCmd.setTexture "stainless",
   RenderCmd.setUV 2.0 1.5,
   RenderCmd.setMaterial "steel",
   RenderCmd.draw ShapeKind.taperedCylinder]
  -- Cup handle loop, i = 0 .. handleSegments-1
  ++ (List.range handleSegments).flatMap handleSegmentCmds
  ++ [ -- Book 1 (tall, back)
      RenderCmd.setTransform book1Scale 0 0 (-8) book1Pos,
      RenderCmd.setTexture "darkplastic",
      RenderCmd.setUV 0.5 1.0,
      RenderCmd.setMaterial "darkplastic",
      RenderCmd.draw ShapeKind.box,
      -- Book 2 (shorter, in front)
      RenderCmd.setTransform book2Scale 0 0 0 book2Pos,
      RenderCmd.setTexture "plastic",
      RenderCmd.setUV 0.5 1.0,
      RenderCmd.setMaterial "plastic",
      RenderCmd.draw ShapeKind.box,
      -- Book 3, lying flat
      RenderCmd.setTransform book3Scale 0 (-90) 0 book3Pos,
      RenderCmd.setTexture "gold",
      RenderCmd.setUV 0.7 1.0,
      RenderCmd.setMaterial "gold",
      RenderCmd.draw ShapeKind.box]

/-- The shape drawn by a command, when it is a draw. -/
def shapeOfCmd : RenderCmd → Option ShapeKind
  | RenderCmd.draw s => some s
  | _ => none

/-- C3: a single `RenderScene` call issues exactly 25 primitive draw calls — the
18 fixed rows other than the mug handle plus 7 handle cylinder segments — in the
fixed order of the section 4.2.4 scene list. -/
theorem render_scene_draw_order :
    renderSceneCmds.filterMap shapeOfCmd =
      [ShapeKind.plane, ShapeKind.box, ShapeKind.cylinder, ShapeKind.cylinder,
       ShapeKind.taperedCylinder, ShapeKind.sphere, ShapeKind.taperedCylinder,
       ShapeKind.sphere, ShapeKind.cylinder, ShapeKind.cone, ShapeKind.sphere,
       ShapeKind.box, ShapeKind.box, ShapeKind.cylinder, ShapeKind.taperedCylinder,
       ShapeKind.cylinder, ShapeKind.cylinder, ShapeKind.cylinder, ShapeKind.cylinder,
       ShapeKind.cylinder, ShapeKind.cylinder, ShapeKind.cylinder,
       ShapeKind.box, ShapeKind.box, ShapeKind.box]
    ∧ (renderSceneCmds.filterMap shapeOfCmd).length = 25 := by
  constructor <;> rfl

/-! ## Shader uniform semantics of the trace (SceneManager.cpp 286-324)

`SetShaderTexture(tag)` writes `bUseTexture = 1` and `objectTexture =
FindTextureSlot(tag)`; `SetShaderColor(r,g,b,a)` writes `bUseTexture = 0` and
`objectColor`. No other command of the trace touches these three uniforms.
`Option` values record uniforms never written since frame start. -/

/-- The texture-path uniforms of the shader, as left by the commands executed so
far; `none` means not written since the (arbitrary) initial state. -/
structure ShaderTexState where
  bUseTexture : Option Bool
  objectTexture : Option Int
  objectColor : Option (ℝ × ℝ × ℝ × ℝ)

/-- Effect of one trace command on the texture-path uniforms, given the texture
registry contents (for `FindTextureSlot`). -/
def applyCmd (registry : List String) (st : ShaderTexState) : RenderCmd → ShaderTexState
  | RenderCmd.setTexture tag =>
      { st with
        bUseTexture := some true
        objectTexture := some (FindTextureSlot registry tag) }
  | RenderCmd.setColor r g b a =>
      { st with bUseTexture := some false, objectColor := some (r, g, b, a) }
  | _ => st

/-- The uniform state in effect at each draw command of a trace, in draw order. -/
def statesAtDraws (registry : List String) :
    ShaderTexState → List RenderCmd → List ShaderTexState
  | _, [] => []
  | st, RenderCmd.draw _ :: rest => st :: statesAtDraws registry st rest
  | st, c :: rest => statesAtDraws registry (applyCmd registry st c) rest

/-- Whether a command is a `SetShaderColor` call (the solid-color path). -/
def isSetColor : RenderCmd → Bool
  | RenderCmd.setColor _ _ _ _ => true
  | _ => false

/-- C10: `RenderScene` never takes the solid-color path — the trace holds no
`SetShaderColor` call, so no draw sets `bUseTexture` to 0 and `objectColor` is
never written (it keeps its frame-start value at all 25 draws); consequently the
material-only rows inherit the texture binding of the most recent textured draw:
the ground plane (draw 0) is drawn with the frame-start uniforms untouched, the
lamp lower arm (draw 4) with `bUseTexture = 1` and the `darkplastic` slot left by
the lamp post, and the lamp neck (draw 8) with the `plastic` slot left by the head
joint. -/
theorem render_scene_no_solid_path (registry : List String) (st0 : ShaderTexState) :
    renderSceneCmds.filter isSetColor = []
    ∧ (statesAtDraws registry st0 renderSceneCmds).map ShaderTexState.objectColor
        = List.replicate 25 st0.objectColor
    ∧ (statesAtDraws registry st0 renderSceneCmds).get? 0 = some st0
    ∧ (statesAtDraws registry st0 renderSceneCmds).get? 4 =
        some { bUseTexture := some true
               objectTexture := some (FindTextureSlot registry "darkplastic")
               objectColor := st0.objectColor }
    ∧ (statesAtDraws registry st0 renderSceneCmds).get? 8 =
        some { bUseTexture := some true
               objectTexture := some (FindTextureSlot registry "plastic")
               objectColor := st0.objectColor } := by
  refine ⟨rfl, rfl, rfl, rfl, rfl⟩

/-! ## Camera and mouse look (ViewManager.cpp 50-62, 126-159)

The `Camera` fields the core touches. The cursor-delta bookkeeping
(`gLastX`/`gLastY`/`gFirstMouse`) is handled by taking each event's deltas
`xoffset = xMousePos - gLastX`, `yoffset = gLastY - yMousePos` as inputs; the
first event after window creation contributes zero deltas. -/

/-- Camera state as used by ViewManager. -/
structure Camera where
  Position : ℝ × ℝ × ℝ
  Front : ℝ × ℝ × ℝ
  Up : ℝ × ℝ × ℝ
  Yaw : ℝ
  Pitch : ℝ
  Zoom : ℝ

/-- The unnormalized front vector assigned by the ViewManager constructor
(ViewManager.cpp 59): `glm::vec3(0.0f, -0.5f, -2.0f)`. -/
def ctorFront : ℝ × ℝ × ℝ := (0, -0.5, -2)

/-- The pre-normalization front vector computed from yaw and pitch
(ViewManager.cpp 154-157). -/
noncomputable def rawFront (yaw pitch : ℝ) : ℝ × ℝ × ℝ :=
  (Real.cos (radians yaw) * Real.cos (radians pitch),
   Real.sin (radians pitch),
   Real.sin (radians yaw) * Real.cos (radians pitch))

/-- Squared Euclidean norm of a 3-vector. -/
def sqNorm3 (v : ℝ × ℝ × ℝ) : ℝ := v.1 ^ 2 + v.2.1 ^ 2 + v.2.2 ^ 2

/-- The `glm::normalize` on a 3-vector. -/
noncomputable def normalize3 (v : ℝ × ℝ × ℝ) : ℝ × ℝ × ℝ :=
  let n := Real.sqrt (sqNorm3 v)
  (v.1 / n, v.2.1 / n, v.2.2 / n)

/-- The unit front vector derived from yaw and pitch (degrees):
`glm::normalize` of the raw front (ViewManager.cpp 158). -/
noncomputable def frontFromYawPitch (yaw pitch : ℝ) : ℝ × ℝ × ℝ :=
  normalize3 (rawFront yaw pitch)

theorem rawFront_sqNorm (yaw pitch : ℝ) : sqNorm3 (rawFront yaw pitch) = 1 := by
  have h1 := Real.sin_sq_add_cos_sq (radians pitch)
  have h2 := Real.sin_sq_add_cos_sq (radians yaw)
  unfold sqNorm3 rawFront
  linear_combination (Real.cos (radians pitch)) ^ 2 * h2 + h1

theorem frontFromYawPitch_eq_raw (yaw pitch : ℝ) :
    frontFromYawPitch yaw pitch = rawFront yaw pitch := by
  unfold frontFromYawPitch normalize3
  rw [rawFront_sqNorm, Real.sqrt_one]
  simp

/-- C7 counterexample: immediately after construction the camera's front vector is
the unnormalized `(0,-0.5,-2)` (ViewManager.cpp 59), and NO yaw/pitch pair derives
it: every yaw/pitch-derived front is a unit vector while `(0,-0.5,-2)` has squared
norm 4.25. Hence the invariant fails at the concrete point "immediately after
construction" of the camera's lifetime. -/
theorem ctor_front_not_derived_from_angles :
    ¬ ∃ yaw pitch, frontFromYawPitch yaw pitch = ctorFront := by
  rintro ⟨y, p, h⟩
  rw [frontFromYawPitch_eq_raw] at h
  have hs := rawFront_sqNorm y p
  rw [h] at hs
  norm_num [sqNorm3, ctorFront] at hs

/-- The pitch clamp of the mouse callback (ViewManager.cpp 147-151). -/
noncomputable def clampPitch (p : ℝ) : ℝ :=
  if p > 89 then 89 else if p < -89 then -89 else p

/-- The `Mouse_Position_Callback` after the first-mouse seeding (ViewManager.cpp
135-158): scales the deltas by sensitivity 0.1, adds them to yaw and pitch,
clamps pitch to `[-89, 89]`, and recomputes the normalized front. -/
noncomputable def mousePositionCallback (cam : Camera) (xoffset yoffset : ℝ) : Camera :=
  let yaw := cam.Yaw + xoffset * 0.1
  let pitch := clampPitch (cam.Pitch + yoffset * 0.1)
  { cam with Yaw := yaw, Pitch := pitch, Front := frontFromYawPitch yaw pitch }

/-- C7 amended: after every mouse-move event the camera's front vector is the unit
vector derived from its current yaw and pitch (and indeed has squared norm 1);
immediately after construction, however, the front is the unnormalized
`(0,-0.5,-2)`, which matches no yaw/pitch derivation. -/
theorem camera_front_invariant_after_mouse (cam : Camera) (dx dy : ℝ) :
    (mousePositionCallback cam dx dy).Front =
      frontFromYawPitch (mousePositionCallback cam dx dy).Yaw
        (mousePositionCallback cam dx dy).Pitch
    ∧ sqNorm3 (mousePositionCallback cam dx dy).Front = 1 := by
  constructor
  · rfl
  · show sqNorm3 (frontFromYawPitch _ _) = 1
    rw [frontFromYawPitch_eq_raw]
    exact rawFront_sqNorm _ _

/-! ## Pitch-clamp dynamics (C8) -/

theorem clampPitch_le (x : ℝ) : clampPitch x ≤ 89 := by
  unfold clampPitch
  split_ifs <;> linarith

theorem neg_le_clampPitch (x : ℝ) : -89 ≤ clampPitch x := by
  unfold clampPitch
  split_ifs <;> linarith

/-- The camera pitch after a sequence of mouse events with the given y offsets,
starting from pitch `p0`: each event adds `yoffset * 0.1` and clamps, exactly as
`Mouse_Position_Callback` does. -/
noncomputable def pitchAfterEvents (p0 : ℝ) (yoffsets : List ℝ) : ℝ :=
  yoffsets.foldl (fun p d => clampPitch (p + d * 0.1)) p0

theorem mousePositionCallback_pitch (cam : Camera) (dx dy : ℝ) :
    (mousePositionCallback cam dx dy).Pitch = clampPitch (cam.Pitch + dy * 0.1) := rfl

theorem pitchAfterEvents_le (l : List ℝ) :
    ∀ p0 : ℝ, p0 ≤ 89 → pitchAfterEvents p0 l ≤ 89 := by
  induction l with
  | nil => intro p0 h; exact h
  | cons d rest ih =>
      intro p0 _
      exact ih _ (clampPitch_le _)

theorem pitchAfterEvents_ge (l : List ℝ) :
    ∀ p0 : ℝ, -89 ≤ p0 → -89 ≤ pitchAfterEvents p0 l := by
  induction l with
  | nil => intro p0 h; exact h
  | cons d rest ih =>
      intro p0 _
      exact ih _ (neg_le_clampPitch _)

theorem increments_sum_nonneg (l : List ℝ) (h : ∀ d ∈ l, 0 ≤ d) :
    0 ≤ (l.map (fun d => d * 0.1)).sum := by
  apply List.sum_nonneg
  intro x hx
  obtain ⟨d, hd, rfl⟩ := List.mem_map.mp hx
  have := h d hd
  nlinarith

theorem increments_sum_nonpos (l : List ℝ) (h : ∀ d ∈ l, d ≤ 0) :
    (l.map (fun d => d * 0.1)).sum ≤ 0 := by
  induction l with
  | nil => simp
  | cons d rest ih =>
      simp only [List.map_cons, List.sum_cons]
      have hd := h d (List.mem_cons_self d rest)
      have hr := ih fun x hx => h x (List.mem_cons_of_mem _ hx)
      nlinarith

theorem pitchAfterEvents_ge_min (l : List ℝ) :
    ∀ p0 : ℝ, -89 ≤ p0 → (∀ d ∈ l, 0 ≤ d) →
      min 89 (p0 + (l.map (fun d => d * 0.1)).sum) ≤ pitchAfterEvents p0 l := by
  induction l with
  | nil =>
      intro p0 _ _
      simp [pitchAfterEvents]
  | cons d rest ih =>
      intro p0 h0 hpos
      have hd : 0 ≤ d := hpos d (List.mem_cons_self d rest)
      have hrest : ∀ x ∈ rest, 0 ≤ x := fun x hx => hpos x (List.mem_cons_of_mem _ hx)
      have hS : 0 ≤ (rest.map (fun x => x * 0.1)).sum := increments_sum_nonneg rest hrest
      have hstep : pitchAfterEvents p0 (d :: rest) =
          pitchAfterEvents (clampPitch (p0 + d * 0.1)) rest := rfl
      have hIH := ih (clampPitch (p0 + d * 0.1)) (neg_le_clampPitch _) hrest
      rw [hstep]
      refine le_trans ?_ hIH
      rcases le_or_lt (p0 + d * 0.1) 89 with hc | hc
      · have hcl : clampPitch (p0 + d * 0.1) = p0 + d * 0.1 := by
          unfold clampPitch
          rw [if_neg (by linarith)]
          rw [if_neg (by push_neg; linarith)]
        rw [hcl]
        have : p0 + (d * 0.1 + (rest.map (fun x => x * 0.1)).sum)
            = p0 + d * 0.1 + (rest.map (fun x => x * 0.1)).sum := by ring
        simp only [List.map_cons, List.sum_cons]
        rw [this]
      · have hcl : clampPitch (p0 + d * 0.1) = 89 := by
          unfold clampPitch
          rw [if_pos hc]
        rw [hcl]
        have h89 : min 89 (89 + (rest.map (fun x => x * 0.1)).sum) = 89 :=
          min_eq_left (by linarith)
        rw [h89]
        exact min_le_left _ _

theorem pitchAfterEvents_le_max (l : List ℝ) :
    ∀ p0 : ℝ, p0 ≤ 89 → (∀ d ∈ l, d ≤ 0) →
      pitchAfterEvents p0 l ≤ max (-89) (p0 + (l.map (fun d => d * 0.1)).sum) := by
  induction l with
  | nil =>
      intro p0 _ _
      simp [pitchAfterEvents]
  | cons d rest ih =>
      intro p0 h0 hneg
      have hd : d ≤ 0 := hneg d (List.mem_cons_self d rest)
      have hrest : ∀ x ∈ rest, x ≤ 0 := fun x hx => hneg x (List.mem_cons_of_mem _ hx)
      have hS : (rest.map (fun x => x * 0.1)).sum ≤ 0 := increments_sum_nonpos rest hrest
      have hstep : pitchAfterEvents p0 (d :: rest) =
          pitchAfterEvents (clampPitch (p0 + d * 0.1)) rest := rfl
      have hIH := ih (clampPitch (p0 + d * 0.1)) (clampPitch_le _) hrest
      rw [hstep]
      refine le_trans hIH ?_
      rcases le_or_lt (-89 : ℝ) (p0 + d * 0.1) with hc | hc
      · have hcl : clampPitch (p0 + d * 0.1) = p0 + d * 0.1 := by
          unfold clampPitch
          rw [if_neg (by push_neg; nlinarith), if_neg (by push_neg; linarith)]
        rw [hcl]
        have : p0 + (d * 0.1 + (rest.map (fun x => x * 0.1)).sum)
            = p0 + d * 0.1 + (rest.map (fun x => x * 0.1)).sum := by ring
        simp only [List.map_cons, List.sum_cons]
        rw [this]
      · have hcl : clampPitch (p0 + d * 0.1) = -89 := by
          unfold clampPitch
          rw [if_neg (by push_neg; linarith), if_pos hc]
        rw [hcl]
        have h89 : max (-89 : ℝ) (-89 + (rest.map (fun x => x * 0.1)).sum) = -89 :=
          max_eq_left (by linarith)
        rw [h89]
        exact le_max_left _ _

/-- C8 counterexample: starting from the perspective-reset camera (pitch -20), the
two mouse events with y offsets `100010` and `-10` have pitch increments
`+10001` and `-1`, totaling exactly `+10000`, yet the final pitch is `88`,
not `89` — the claim's universally quantified form fails for mixed-sign
sequences. -/
theorem pitch_total_10000_final_88 :
    (mousePositionCallback (mousePositionCallback
        { Position := (0, 5, 12), Front := frontFromYawPitch (-90) (-20),
          Up := (0, 1, 0), Yaw := -90, Pitch := -20, Zoom := 80 }
        0 100010) 0 (-10)).Pitch = 88
    ∧ (([100010, -10] : List ℝ).map (fun d => d * 0.1)).sum = 10000
    ∧ (88 : ℝ) ≠ 89 := by
  refine ⟨?_, by norm_num, by norm_num⟩
  rw [mousePositionCallback_pitch, mousePositionCallback_pitch]
  have h1 : clampPitch ((-20 : ℝ) + 100010 * 0.1) = 89 := by
    unfold clampPitch
    rw [if_pos (by norm_num)]
  simp only [h1]
  unfold clampPitch
  rw [if_neg (by norm_num), if_neg (by norm_num)]
  norm_num

/-- C8 amended: after every mouse-move event the camera pitch lies in `[-89, 89]`
(the event updates pitch by `clampPitch (pitch + yoffset*0.1)`); and for any event
sequence whose pitch increments are all of one sign, starting from any pitch in
`[-89, 89]`, increments totaling `+10000` leave pitch at exactly `89`, and
increments totaling `-10000` leave it at exactly `-89`. (Mixed-sign sequences can
end below the cap, see the counterexample.) -/
theorem pitch_clamp_saturation :
    (∀ (cam : Camera) (dx dy : ℝ),
      (mousePositionCallback cam dx dy).Pitch = clampPitch (cam.Pitch + dy * 0.1)
      ∧ -89 ≤ (mousePositionCallback cam dx dy).Pitch
      ∧ (mousePositionCallback cam dx dy).Pitch ≤ 89)
    ∧ (∀ (p0 : ℝ) (l : List ℝ), -89 ≤ p0 → p0 ≤ 89 → (∀ d ∈ l, 0 ≤ d) →
        (l.map (fun d => d * 0.1)).sum = 10000 → pitchAfterEvents p0 l = 89)
    ∧ (∀ (p0 : ℝ) (l : List ℝ), -89 ≤ p0 → p0 ≤ 89 → (∀ d ∈ l, d ≤ 0) →
        (l.map (fun d => d * 0.1)).sum = -10000 → pitchAfterEvents p0 l = -89) := by
  refine ⟨?_, ?_, ?_⟩
  · intro cam dx dy
    exact ⟨rfl, neg_le_clampPitch _, clampPitch_le _⟩
  · intro p0 l h0 h1 hpos hsum
    have hup := pitchAfterEvents_ge_min l p0 h0 hpos
    rw [hsum] at hup
    have hmin : min (89 : ℝ) (p0 + 10000) = 89 := min_eq_left (by linarith)
    rw [hmin] at hup
    exact le_antisymm (pitchAfterEvents_le l p0 h1) hup
  · intro p0 l h0 h1 hneg hsum
    have hdn := pitchAfterEvents_le_max l p0 h1 hneg
    rw [hsum] at hdn
    have hmax : max (-89 : ℝ) (p0 + -10000) = -89 := max_eq_left (by linarith)
    rw [hmax] at hdn
    exact le_antisymm hdn (pitchAfterEvents_ge l p0 h0)

/-- C8 amended witness: one event of y offset `100000` (increment `+10000`) from
pitch `0` saturates at exactly `89`; one event of `-100000` saturates at `-89`. -/
theorem pitch_clamp_saturation_witness :
    pitchAfterEvents 0 [100000] = 89 ∧ pitchAfterEvents 0 [-100000] = -89 := by
  constructor
  · refine pitch_clamp_saturation.2.1 0 [100000] (by norm_num) (by norm_num) ?_ (by norm_num)
    intro d hd
    rw [List.mem_singleton] at hd
    rw [hd]
    norm_num
  · refine pitch_clamp_saturation.2.2 0 [-100000] (by norm_num) (by norm_num) ?_ (by norm_num)
    intro d hd
    rw [List.mem_singleton] at hd
    rw [hd]
    norm_num

/-! ## P-key edge trigger (ProcessKeyboardEvents, ViewManager.cpp 204-225)

The static latch `pPressed`, the projection flag and the camera, stepped one
frame at a time by whether `glfwGetKey(P)` reads as pressed. -/

/-- The state read and written by the P-key block of `ProcessKeyboardEvents`. -/
structure PKeyState where
  pPressed : Bool
  bOrthographicProjection : Bool
  cam : Camera

/-- The perspective reset applied when the P edge fires (ViewManager.cpp 208-221):
orthographic off, camera to `(0,5,12)`, yaw `-90`, pitch `-20`, front recomputed
from yaw and pitch. -/
noncomputable def perspectiveReset (cam : Camera) : Camera :=
  { cam with
    Position := (0, 5, 12)
    Yaw := -90
    Pitch := -20
    Front := frontFromYawPitch (-90) (-20) }

/-- One frame of the P-key block (ViewManager.cpp 206-225): fire the reset when P
is down and the latch is clear, setting the latch; clear the latch when P reads as
released. Returns the new state and whether the reset fired this frame. -/
noncomputable def processPKeyFrame (s : PKeyState) (pDown : Bool) : PKeyState × Bool :=
  let s1fired :=
    if pDown && !s.pPressed then
      ({ pPressed := true
         bOrthographicProjection := false
         cam := perspectiveReset s.cam }, true)
    else (s, false)
  if !pDown then ({ s1fired.1 with pPressed := false }, s1fired.2)
  else s1fired

/-- Number of perspective resets fired over a sequence of frames, each frame given
by whether P reads as pressed. -/
noncomputable def pKeyFireCount (s : PKeyState) : List Bool → Nat
  | [] => 0
  | f :: rest =>
      (if (processPKeyFrame s f).2 then 1 else 0)
        + pKeyFireCount (processPKeyFrame s f).1 rest

theorem pKeyFireCount_held_latched (m : Nat) :
    ∀ s : PKeyState, s.pPressed = true →
      pKeyFireCount s (List.replicate m true) = 0 := by
  induction m with
  | zero => intro s _; rfl
  | succ n ih =>
      intro s hs
      have hframe : processPKeyFrame s true = (s, false) := by
        unfold processPKeyFrame
        rw [hs]
        simp
      simp only [List.replicate_succ, pKeyFireCount, hframe]
      simpa using ih s hs

/-- C9: for every N ≥ 1, pressing P with the latch clear and holding it for the
next N-1 frames executes the perspective reset exactly once (zero times when the
latch is already set, i.e. P was down the previous frame — so it can fire again
only after a frame in which P is released, which clears the latch); the firing
frame clears the orthographic flag and resets the camera to position `(0,5,12)`,
yaw `-90`, pitch `-20`, with front recomputed from yaw and pitch. -/
theorem p_key_fires_once (N : Nat) (s : PKeyState) (hN : 1 ≤ N) :
    pKeyFireCount s (List.replicate N true) = (if s.pPressed then 0 else 1)
    ∧ (processPKeyFrame s false).1.pPressed = false
    ∧ (s.pPressed = false →
        (processPKeyFrame s true).1.bOrthographicProjection = false
        ∧ (processPKeyFrame s true).1.cam.Position = (0, 5, 12)
        ∧ (processPKeyFrame s true).1.cam.Yaw = -90
        ∧ (processPKeyFrame s true).1.cam.Pitch = -20
        ∧ (processPKeyFrame s true).1.cam.Front = frontFromYawPitch (-90) (-20)) := by
  refine ⟨?_, ?_, ?_⟩
  · obtain ⟨M, rfl⟩ : ∃ M, N = M + 1 := ⟨N - 1, (Nat.succ_pred_eq_of_pos hN).symm⟩
    cases hp : s.pPressed with
    | true =>
        simp only [if_pos]
        exact pKeyFireCount_held_latched (M + 1) s hp
    | false =>
        have hframe : processPKeyFrame s true =
            ({ pPressed := true
               bOrthographicProjection := false
               cam := perspectiveReset s.cam }, true) := by
          unfold processPKeyFrame
          rw [hp]
          simp
        simp only [List.replicate_succ, pKeyFireCount, hframe]
        rw [pKeyFireCount_held_latched M _ rfl]
        simp
  · unfold processPKeyFrame
    cases hp : s.pPressed <;> simp
  · intro hp
    have hframe : processPKeyFrame s true =
        ({ pPressed := true
           bOrthographicProjection := false
           cam := perspectiveReset s.cam }, true) := by
      unfold processPKeyFrame
      rw [hp]
      simp
    rw [hframe]
    exact ⟨rfl, rfl, rfl, rfl, rfl⟩

/-- C9 witness: from a latch-clear state holding P for 3 frames fires exactly one
reset, and the firing frame applies the documented camera reset. -/
theorem p_key_fires_once_witness :
    pKeyFireCount
      { pPressed := false
        bOrthographicProjection := true
        cam := { Position := (1, 1, 1), Front := (0, 0, -1), Up := (0, 1, 0),
                 Yaw := 0, Pitch := 0, Zoom := 80 } }
      (List.replicate 3 true) = 1
    ∧ (processPKeyFrame
        { pPressed := false
          bOrthographicProjection := true
          cam := { Position := (1, 1, 1), Front := (0, 0, -1), Up := (0, 1, 0),
                   Yaw := 0, Pitch := 0, Zoom := 80 } }
        true).1.cam.Position = (0, 5, 12) := by
  have h := p_key_fires_once 3
    { pPressed := false
      bOrthographicProjection := true
      cam := { Position := (1, 1, 1), Front := (0, 0, -1), Up := (0, 1, 0),
               Yaw := 0, Pitch := 0, Zoom := 80 } }
    (by norm_num)
  exact ⟨by simpa using h.1, (h.2.2 rfl).2.1⟩

end CS330
